import Mathlib

/-!
Verification of the GutInvoice invoice ledger: sequential invoice numbering,
cancellation / credit-note issuance, and monthly GST report aggregation,
shallowly embedded from `src/main.py`.

Monetary amounts (Python floats) are modelled as rationals; the claims settled
here concern which records enter which aggregate and which fields are copied,
not floating-point rounding.  Python dict `.get(key, default)` access on seller
profiles and invoice payloads is modelled by structures whose string fields use
`""` for an absent value, matching Python truthiness (`None` and `""` are both
falsy in the `a or b` chains of the source).
-/

namespace GutInvoice

/-- Python `a or b` on strings: `""` (and absent, modelled as `""`) is falsy. -/
def pyOr (a b : String) : String := if a = "" then b else a

/-- Python `s.upper()` (character-wise uppercasing; the names the claims are
about are ASCII, for which this agrees with Python). -/
def pyUpper (s : String) : String := String.mk (s.data.map Char.toUpper)

/-- Seller profile row (table `sellers`).  The source reads both key spellings
(`business_name` / `seller_name`, `address` / `seller_address`,
`gstin` / `seller_gstin`), so both are modelled. -/
structure Seller where
  business_name : String
  seller_name : String
  address : String
  seller_address : String
  gstin : String
  seller_gstin : String
deriving DecidableEq

/-- One invoice line item (entry of the `items` array in the invoice payload). -/
structure LineItem where
  sno : String
  description : String
  hsn_sac : String
  qty : Rat
  unit : String
  rate : Rat
  amount : Rat
deriving DecidableEq

/-- The structured invoice payload (the JSON stored in the `invoice_data`
column, as produced by extraction / cancellation).  Fields that a regular
invoice does not carry (`credit_note_number`, `original_invoice_number`,
`original_invoice_date`, `reason`) are `""` there. -/
structure InvoiceData where
  invoice_type : String
  invoice_number : String
  invoice_date : String
  seller_name : String
  seller_address : String
  seller_gstin : String
  customer_name : String
  customer_address : String
  customer_gstin : String
  place_of_supply : String
  is_interstate : Bool
  items : List LineItem
  taxable_value : Rat
  cgst_rate : Rat
  sgst_rate : Rat
  igst_rate : Rat
  cgst : Rat
  sgst : Rat
  igst : Rat
  total_amount : Rat
  credit_note_number : String
  original_invoice_number : String
  original_invoice_date : String
  reason : String
deriving DecidableEq

/-- A row of the `invoices` table, as written by `save_invoice` (core + extra
fields).  The stored `invoice_data` JSON is modelled structurally (the
successful-parse path of `json.loads`). -/
structure Record where
  seller_phone : String
  invoice_type : String
  invoice_number : String
  customer_name : String
  total_amount : Rat
  invoice_data : InvoiceData
  invoice_month : Nat
  invoice_year : Nat
  taxable_value : Rat
  cgst : Rat
  sgst : Rat
  igst : Rat
  invoice_date : String
  is_cancelled : Bool
  credit_note_for : String
deriving DecidableEq

/-- The two regex character classes kept by `re.sub(r"[^A-Z0-9]", "", biz)`
after `.upper()`: ASCII uppercase letters and digits. -/
def keepAlnum (c : Char) : Bool :=
  ('A' ≤ c && c ≤ 'Z') || ('0' ≤ c && c ≤ '9')

/-- Embeds `get_invoice_prefix`: uppercase the business name (falling back to
`seller_name`, then `"GUT"`), strip everything but `A-Z0-9`, append `"GUT"`,
take the first three characters (`(cleaned + "GUT")[:3]`). -/
def invoicePrefixOf (seller : Seller) : String :=
  let biz := pyUpper (pyOr seller.business_name (pyOr seller.seller_name "GUT"))
  String.mk ((biz.data.filter keepAlnum ++ "GUT".data).take 3)

/-- Python `f"{n:03d}"` for a natural number. -/
def pad3 (n : Nat) : String :=
  if n < 10 then "00" ++ toString n
  else if n < 100 then "0" ++ toString n
  else toString n

/-- Python `f"{n:02d}"` for a natural number. -/
def pad2 (n : Nat) : String :=
  if n < 10 then "0" ++ toString n else toString n

/-- The row filter of `get_next_seq`'s query: same seller phone, same invoice
month and year, and invoice type equal to (credit branch) or different from
(regular branch) `"CREDIT NOTE"`. -/
def matchesSeq (phone : String) (month year : Nat) (is_credit : Bool)
    (r : Record) : Bool :=
  decide (r.seller_phone = phone) && decide (r.invoice_month = month) &&
  decide (r.invoice_year = year) &&
  (if is_credit then decide (r.invoice_type = "CREDIT NOTE")
   else decide (r.invoice_type ≠ "CREDIT NOTE"))

/-- Embeds `get_next_seq` on the success path of the counting query: the number
of matching stored rows plus one.  (On a query exception the source returns 1;
claims about the allocator presuppose the query succeeds.) -/
def get_next_seq (db : List Record) (phone : String) (month year : Nat)
    (is_credit : Bool) : Nat :=
  (db.filter (matchesSeq phone month year is_credit)).length + 1

/-- Embeds `generate_invoice_number`:
`f"{get_invoice_prefix(seller)}{get_next_seq(...):03d}-{month:02d}{year}"`. -/
def generate_invoice_number (db : List Record) (phone : String) (seller : Seller)
    (month year : Nat) : String :=
  invoicePrefixOf seller ++ pad3 (get_next_seq db phone month year false) ++
    "-" ++ pad2 month ++ toString year

/-- Embeds `generate_credit_note_number`:
`f"CN-{get_invoice_prefix(seller)}{get_next_seq(..., True):03d}-{month:02d}{year}"`. -/
def generate_credit_note_number (db : List Record) (phone : String)
    (seller : Seller) (month year : Nat) : String :=
  "CN-" ++ invoicePrefixOf seller ++ pad3 (get_next_seq db phone month year true) ++
    "-" ++ pad2 month ++ toString year

/-- Embeds `get_invoice_by_number` (`limit=1` point query): the first stored row
with this seller phone and exactly this invoice number. -/
def get_invoice_by_number (db : List Record) (phone invoice_number : String) :
    Option Record :=
  db.find? (fun r =>
    decide (r.seller_phone = phone) && decide (r.invoice_number = invoice_number))

/-- Embeds `cancel_invoice_in_db`: a PATCH setting `is_cancelled` on every row
matching the seller phone and invoice number. -/
def cancel_invoice_in_db (db : List Record) (phone invoice_number : String) :
    List Record :=
  db.map (fun r =>
    if r.seller_phone = phone ∧ r.invoice_number = invoice_number
    then { r with is_cancelled := true } else r)

/-- The reference-resolution step of `handle_cancel_request`: exact lookup of
the parsed fragment, then — only if that found nothing — exact lookup of the
fragment with the seller's current prefix prepended. -/
def resolveInvoice (db : List Record) (phone : String) (seller : Seller)
    (ref : String) : Option Record :=
  match get_invoice_by_number db phone ref with
  | some o => some o
  | none => get_invoice_by_number db phone (invoicePrefixOf seller ++ ref)

/-- The credit-note payload built by `handle_cancel_request`:
`{**orig_data, ...overrides}`.  Monetary fields, line items and buyer details
are taken from the original invoice's stored payload; seller details come from
the live profile with fallbacks to the stored payload. -/
def build_credit_note_data (orig_data : InvoiceData) (origNumber : String)
    (seller : Seller) (cn_no : String) (dateStr : String) : InvoiceData :=
  { orig_data with
    invoice_type := "CREDIT NOTE"
    invoice_number := cn_no
    credit_note_number := cn_no
    invoice_date := dateStr
    original_invoice_number := origNumber
    original_invoice_date := orig_data.invoice_date
    reason := "Cancellation of invoice as requested by seller"
    seller_name := pyOr seller.business_name (pyOr seller.seller_name orig_data.seller_name)
    seller_address := pyOr seller.address (pyOr seller.seller_address orig_data.seller_address)
    seller_gstin := pyOr seller.gstin (pyOr seller.seller_gstin orig_data.seller_gstin)
    customer_name := orig_data.customer_name
    customer_address := orig_data.customer_address
    customer_gstin := orig_data.customer_gstin
    place_of_supply := orig_data.place_of_supply
    cgst_rate := orig_data.cgst_rate
    sgst_rate := orig_data.sgst_rate
    igst_rate := orig_data.igst_rate
    cgst := orig_data.cgst
    sgst := orig_data.sgst
    igst := orig_data.igst
    taxable_value := orig_data.taxable_value
    total_amount := orig_data.total_amount
    items := orig_data.items }

/-- Embeds the row built by `save_invoice` from a payload `d` (full
core + extra insert).  `invoice_month` / `invoice_year` are the values
`save_invoice` derives from the payload's `DD/MM/YYYY` date (falling back to
the current UTC month/year), passed here explicitly. -/
def record_of_data (phone : String) (d : InvoiceData) (month year : Nat) :
    Record :=
  { seller_phone := phone
    invoice_type := d.invoice_type
    invoice_number := d.invoice_number
    customer_name := d.customer_name
    total_amount := d.total_amount
    invoice_data := d
    invoice_month := month
    invoice_year := year
    taxable_value := d.taxable_value
    cgst := d.cgst
    sgst := d.sgst
    igst := d.igst
    invoice_date := d.invoice_date
    is_cancelled := false
    credit_note_for := d.original_invoice_number }

/-- Outcome reported by the cancellation handler (which message was sent and,
on success, the credit-note number). -/
inductive CancelResult where
  | noRef : CancelResult
  | notFound (ref : String) : CancelResult
  | alreadyCancelled (invoice_number : String) : CancelResult
  | creditNotesNotCancellable : CancelResult
  | pdfFailed : CancelResult
  | cancelled (cn_no : String) (saveOk : Bool) : CancelResult
deriving DecidableEq

/-- Ambient effects of one run of `handle_cancel_request`: the current UTC
month/year and formatted date (`now.strftime`), whether PDF build/upload
succeeds (`select_and_generate_pdf` raises on upload failure, aborting the
handler), and whether `save_invoice` persists (it swallows its own failures and
the handler continues). -/
structure CancelEnv where
  now_month : Nat
  now_year : Nat
  now_date : String
  pdf_ok : Bool
  save_ok : Bool
deriving DecidableEq

/-- Embeds `handle_cancel_request` after `parse_invoice_ref` (whose extracted
fragment, or `none`, is the `ref` argument), as a transition on the invoice
store: resolve the reference (exact, then prefix-prepended exact), guard on
already-cancelled and credit-note rows, then flip the void flag in the store,
number and build the credit note, and — if the PDF step does not raise and the
save succeeds — append the credit-note row. -/
def handle_cancel_request (db : List Record) (from_num : String)
    (ref : Option String) (seller : Seller) (e : CancelEnv) :
    List Record × CancelResult :=
  match ref with
  | none => (db, CancelResult.noRef)
  | some ref =>
    match resolveInvoice db from_num seller ref with
    | none => (db, CancelResult.notFound ref)
    | some orig =>
      if orig.is_cancelled then (db, CancelResult.alreadyCancelled orig.invoice_number)
      else if orig.invoice_type = "CREDIT NOTE" then
        (db, CancelResult.creditNotesNotCancellable)
      else
        let db1 := cancel_invoice_in_db db from_num orig.invoice_number
        let cn_no := generate_credit_note_number db1 from_num seller e.now_month e.now_year
        let credit := build_credit_note_data orig.invoice_data orig.invoice_number
          seller cn_no e.now_date
        if e.pdf_ok then
          if e.save_ok then
            (db1 ++ [record_of_data from_num credit e.now_month e.now_year],
             CancelResult.cancelled cn_no true)
          else (db1, CancelResult.cancelled cn_no false)
        else (db1, CancelResult.pdfFailed)

/-- Python substring containment `pat in s` on character lists: some tail of
`s` starts with `pat` (the empty pattern is always contained). -/
def listContainsSub (pat : List Char) : List Char → Bool
  | [] => pat.isEmpty
  | c :: t => pat.isPrefixOf (c :: t) || listContainsSub pat t

/-- Python `pat in s` for strings. -/
def pyIn (pat s : String) : Bool := listContainsSub pat.data s.data

/-- The per-record view built by `_parse_row` from a raw invoice row (on the
successful `json.loads(raw["invoice_data"])` path). -/
structure ParsedRow where
  invoice_number : String
  invoice_date : String
  customer_name : String
  invoice_type : String
  taxable_value : Rat
  cgst : Rat
  sgst : Rat
  igst : Rat
  total_amount : Rat
  data : InvoiceData
  cancelled : Bool
deriving DecidableEq

/-- Embeds `_parse_row`. -/
def _parse_row (r : Record) : ParsedRow :=
  { invoice_number := r.invoice_number
    invoice_date := r.invoice_data.invoice_date
    customer_name := r.customer_name
    invoice_type := r.invoice_type
    taxable_value := r.taxable_value
    cgst := r.cgst
    sgst := r.sgst
    igst := r.igst
    total_amount := r.total_amount
    data := r.invoice_data
    cancelled := r.is_cancelled }

/-- One accumulated row of the HSN-wise summary dict. -/
structure HsnEntry where
  hsn : String
  description : String
  taxable : Rat
  cgst : Rat
  sgst : Rat
  igst : Rat
deriving DecidableEq

/-- Python `round(x, 2)` modelled on rationals (ties are immaterial to the
claims settled here, which concern only which invoices are accumulated). -/
def round2 (x : Rat) : Rat := (round (x * 100) : Int) / 100

/-- One `hsn[key]` update of `_build_hsn`: insert-with-zeros on first sight of
the code, then accumulate taxable value and the applicable tax components.
Insertion order of the dict is kept, matching `list(hsn.values())`. -/
def hsnUpdate (acc : List HsnEntry) (key descr : String) (amt c s i : Rat) :
    List HsnEntry :=
  if acc.any (fun e => decide (e.hsn = key)) then
    acc.map (fun e =>
      if e.hsn = key then
        { e with taxable := e.taxable + amt, cgst := e.cgst + c,
                 sgst := e.sgst + s, igst := e.igst + i }
      else e)
  else acc ++ [{ hsn := key, description := descr, taxable := amt,
                 cgst := c, sgst := s, igst := i }]

/-- Embeds `_build_hsn`: walk the given rows' line items, skip items with a
blank HSN code, and accumulate per code the amount plus CGST/SGST (intra-state)
or IGST (inter-state) computed from the stored rates. -/
def _build_hsn (inv_list : List ParsedRow) : List HsnEntry :=
  inv_list.foldl (fun acc inv =>
    let d := inv.data
    let inter := d.is_interstate
    d.items.foldl (fun acc item =>
      let key := item.hsn_sac.trim
      if key = "" then acc
      else
        let amt := item.amount
        let c := if inter then 0 else round2 (amt * d.cgst_rate / 100)
        let s := if inter then 0 else round2 (amt * d.sgst_rate / 100)
        let i := if inter then round2 (amt * d.igst_rate / 100) else 0
        hsnUpdate acc key item.description amt c s i) acc) []

/-- The `final_summary` block of the monthly report. -/
structure FinalSummary where
  gross_taxable : Rat
  gross_cgst : Rat
  gross_sgst : Rat
  gross_igst : Rat
  reversed_cgst : Rat
  reversed_sgst : Rat
  reversed_igst : Rat
  net_gst : Rat
deriving DecidableEq

/-- The monthly report document built by `handle_report_request` (the fields
the aggregation claims are about). -/
structure Report where
  total_invoices : Nat
  taxable_value : Rat
  total_gst : Rat
  tax_invoices : List ParsedRow
  bos_invoices : List ParsedRow
  nongst_invoices : List ParsedRow
  credit_notes : List ParsedRow
  hsn_summary : List HsnEntry
  final_summary : FinalSummary
deriving DecidableEq

/-- Embeds the aggregation core of `handle_report_request` on the rows fetched
for the period: parse every row; split credit notes from regular invoices;
filter the active (non-voided) regular invoices; section the active ones by
type-tag containment tests; sum gross figures over all regular invoices
(voided included) and reversed figures over the credit notes. -/
def reportOf (all_raw : List Record) : Report :=
  let parsed := all_raw.map _parse_row
  let credit_ns := parsed.filter (fun p => decide (p.invoice_type = "CREDIT NOTE"))
  let regular := parsed.filter (fun p => decide (p.invoice_type ≠ "CREDIT NOTE"))
  let active := regular.filter (fun p => ! p.cancelled)
  let tax_inv := active.filter (fun i => pyIn "TAX" (pyUpper i.invoice_type))
  let bos_inv := active.filter (fun i => pyIn "BILL" (pyUpper i.invoice_type))
  let nongst_inv := active.filter (fun i =>
    decide (pyUpper i.invoice_type = "INVOICE" ∨ pyUpper i.invoice_type = "NON-GST" ∨
      pyUpper i.invoice_type = "NONGST"))
  let gt := (regular.map (fun i => i.taxable_value)).sum
  let gc := (regular.map (fun i => i.cgst)).sum
  let gs := (regular.map (fun i => i.sgst)).sum
  let gi := (regular.map (fun i => i.igst)).sum
  let rc := (credit_ns.map (fun i => i.cgst)).sum
  let rs := (credit_ns.map (fun i => i.sgst)).sum
  let ri := (credit_ns.map (fun i => i.igst)).sum
  let net := (gc + gs + gi) - (rc + rs + ri)
  { total_invoices := regular.length
    taxable_value := gt
    total_gst := net
    tax_invoices := tax_inv
    bos_invoices := bos_inv
    nongst_invoices := nongst_inv
    credit_notes := credit_ns
    hsn_summary := _build_hsn active
    final_summary := { gross_taxable := gt, gross_cgst := gc, gross_sgst := gs,
                       gross_igst := gi, reversed_cgst := rc, reversed_sgst := rs,
                       reversed_igst := ri, net_gst := net } }

/-- Embeds `handle_report_request`'s empty-period guard: no rows for the period
produces the "no invoices" message instead of a report document. -/
def handle_report_request (all_raw : List Record) : Option Report :=
  if all_raw = [] then none else some (reportOf all_raw)

/-- One operation of the sequential-issuance model used for the allocator
claims: issue a new (non-credit-note) invoice with payload `d`, or void a
stored invoice by number.  This is the claim's precondition world: operations
run one at a time, every issued invoice is persisted, nothing is deleted. -/
inductive LedgerOp where
  | issue (d : InvoiceData) : LedgerOp
  | void (invoice_number : String) : LedgerOp
deriving DecidableEq

/-- An `issue` operation carries a non-credit-note payload (`void` is
unconstrained). -/
def issueOk : LedgerOp → Bool
  | LedgerOp.issue d => decide (d.invoice_type ≠ "CREDIT NOTE")
  | LedgerOp.void _ => true

/-- Applying one ledger operation to the store: issuing numbers the payload via
`generate_invoice_number` against the current store and persists it with
`save_invoice`'s row shape; voiding runs `cancel_invoice_in_db`. -/
def ledgerStep (phone : String) (seller : Seller) (m y : Nat)
    (db : List Record) : LedgerOp → List Record
  | LedgerOp.issue d =>
      db ++ [record_of_data phone
        { d with invoice_number := generate_invoice_number db phone seller m y } m y]
  | LedgerOp.void n => cancel_invoice_in_db db phone n

/-- The sequence numbers `get_next_seq` hands out to the issue operations of a
run, in order. -/
def allocatedSeqs (phone : String) (seller : Seller) (m y : Nat)
    (db : List Record) : List LedgerOp → List Nat
  | [] => []
  | LedgerOp.issue d :: ops =>
      get_next_seq db phone m y false ::
        allocatedSeqs phone seller m y
          (ledgerStep phone seller m y db (LedgerOp.issue d)) ops
  | LedgerOp.void n :: ops =>
      allocatedSeqs phone seller m y
        (ledgerStep phone seller m y db (LedgerOp.void n)) ops

/-- Number of issue operations in a run. -/
def issueCount : List LedgerOp → Nat
  | [] => 0
  | LedgerOp.issue _ :: ops => issueCount ops + 1
  | LedgerOp.void _ :: ops => issueCount ops

/-- The invoice prefix as claim C6 words it: the first three alphabetic
characters of the seller's business name, uppercased, with the default prefix
when the name contains fewer than three letters.  Stated from the spec's words,
to be compared against `invoicePrefixOf` (the source's rule). -/
def claimPrefixOf (seller : Seller) : String :=
  let letters := (pyUpper (pyOr seller.business_name (pyOr seller.seller_name "GUT"))).data.filter
    (fun c => c.isAlpha)
  if letters.length < 3 then "GUT" else String.mk (letters.take 3)

/-- The cancellation lookup as claim C7 words it: over the seller's stored
active invoices, try exact match on the full stored number, then suffix match,
then substring match — first match wins.  Stated from the spec's words, to be
compared against `resolveInvoice` (the source's rule). -/
def claimLookup (db : List Record) (phone ref : String) : Option Record :=
  let mine := db.filter (fun r => decide (r.seller_phone = phone) && ! r.is_cancelled)
  match mine.find? (fun r => decide (r.invoice_number = ref)) with
  | some o => some o
  | none =>
    match mine.find? (fun r => ref.data.isSuffixOf r.invoice_number.data) with
    | some o => some o
    | none => mine.find? (fun r => listContainsSub ref.data r.invoice_number.data)

/-- A concrete line item used by witnesses. -/
def sampleItem : LineItem :=
  { sno := "1", description := "Rice bags", hsn_sac := "1006", qty := 10,
    unit := "Nos", rate := 100, amount := 1000 }

/-- A concrete intra-state tax-invoice payload used by witnesses. -/
def sampleData : InvoiceData :=
  { invoice_type := "TAX INVOICE"
    invoice_number := "TEJ001-022026"
    invoice_date := "01/02/2026"
    seller_name := "Tejesh Traders"
    seller_address := "Hyderabad"
    seller_gstin := "36AAAAA0000A1Z5"
    customer_name := "Ravi"
    customer_address := "Warangal"
    customer_gstin := ""
    place_of_supply := "Telangana"
    is_interstate := false
    items := [sampleItem]
    taxable_value := 1000
    cgst_rate := 9
    sgst_rate := 9
    igst_rate := 0
    cgst := 90
    sgst := 90
    igst := 0
    total_amount := 1180
    credit_note_number := ""
    original_invoice_number := ""
    original_invoice_date := ""
    reason := "" }

/-- The spec's example seller ("Tejesh Traders"). -/
def tejSeller : Seller :=
  { business_name := "Tejesh Traders", seller_name := "", address := "Hyderabad",
    seller_address := "", gstin := "36AAAAA0000A1Z5", seller_gstin := "" }

/-- A concrete seller phone used by witnesses. -/
def samplePhone : String := "whatsapp:+919000000001"

/-- The stored row of `sampleData` for February 2026. -/
def sampleRecord : Record := record_of_data samplePhone sampleData 2 2026

/-- `sampleRecord` after a successful void flip. -/
def cancelledRecord : Record := { sampleRecord with is_cancelled := true }

/-- A credit-note row already stored for the same seller and period (the first
credit note of February 2026). -/
def cnRecord : Record :=
  record_of_data samplePhone
    { sampleData with
      invoice_type := "CREDIT NOTE"
      invoice_number := "CN-TEJ001-022026"
      credit_note_number := "CN-TEJ001-022026"
      original_invoice_number := "TEJ000-022026" } 2 2026

/-- A seller whose business name starts with a digit. -/
def sellerSeven : Seller :=
  { business_name := "7 Eleven", seller_name := "", address := "",
    seller_address := "", gstin := "", seller_gstin := "" }

/-- A stored row whose number carries a prefix (`XYZ`) different from the
seller's current prefix (`TEJ`), e.g. issued before a business rename. -/
def recXYZ : Record :=
  record_of_data samplePhone
    { sampleData with invoice_number := "XYZ002-022026" } 2 2026

/-- The spec scenario's stored second invoice, `TEJ002-022026`. -/
def tejRecord2 : Record :=
  record_of_data samplePhone
    { sampleData with invoice_number := "TEJ002-022026" } 2 2026

/-- An active row whose type tag contains both the taxed and the
bill-of-supply markers. -/
def recTaxBill : Record :=
  record_of_data samplePhone
    { sampleData with invoice_type := "TAX BILL", invoice_number := "TEJ003-022026" } 2 2026

/-- An active row whose type tag matches none of the three section tests. -/
def recMisc : Record :=
  record_of_data samplePhone
    { sampleData with invoice_type := "PROFORMA", invoice_number := "TEJ004-022026" } 2 2026

/-! ## Helper lemmas -/

theorem cancel_cons (a : Record) (t : List Record) (phone n : String) :
    cancel_invoice_in_db (a :: t) phone n =
      (if a.seller_phone = phone ∧ a.invoice_number = n
       then { a with is_cancelled := true } else a) :: cancel_invoice_in_db t phone n := rfl

/-- Flipping the void flag never changes the count of rows matching a
predicate that ignores `is_cancelled`. -/
theorem cancel_preserves_count (db : List Record) (phone n : String)
    (p : Record → Bool) (hp : ∀ r, p { r with is_cancelled := true } = p r) :
    ((cancel_invoice_in_db db phone n).filter p).length = (db.filter p).length := by
  induction db with
  | nil => rfl
  | cons a t ih =>
    rw [cancel_cons, List.filter_cons, List.filter_cons]
    have hpa : p (if a.seller_phone = phone ∧ a.invoice_number = n
        then { a with is_cancelled := true } else a) = p a := by
      split
      · exact hp a
      · rfl
    rw [hpa]
    cases hb : p a <;> simp [ih]

/-- The allocator's count is unchanged by voiding (the counting query filters
on type and period only, not on the void flag). -/
theorem get_next_seq_cancel (db : List Record) (phone n ph : String)
    (m y : Nat) (b : Bool) :
    get_next_seq (cancel_invoice_in_db db phone n) ph m y b =
      get_next_seq db ph m y b := by
  unfold get_next_seq
  rw [cancel_preserves_count db phone n (matchesSeq ph m y b) (fun r => rfl)]

/-- Appending one matching row bumps the allocator by exactly one. -/
theorem get_next_seq_append_matching (db : List Record) (r : Record) (ph : String)
    (m y : Nat) (b : Bool) (h : matchesSeq ph m y b r = true) :
    get_next_seq (db ++ [r]) ph m y b = get_next_seq db ph m y b + 1 := by
  simp [get_next_seq, List.filter_append, h]

/-- Core allocator invariant: a run of sequential operations whose issues are
all non-credit-note hands out exactly the consecutive block starting at the
allocator's current value. -/
theorem allocatedSeqs_eq_range (phone : String) (seller : Seller) (m y : Nat) :
    ∀ (ops : List LedgerOp) (db : List Record), (∀ op ∈ ops, issueOk op = true) →
      allocatedSeqs phone seller m y db ops =
        List.range' (get_next_seq db phone m y false) (issueCount ops) := by
  intro ops
  induction ops with
  | nil => intro db _; rfl
  | cons op t ih =>
    intro db h
    have ht : ∀ o ∈ t, issueOk o = true := fun o ho => h o (List.mem_cons_of_mem _ ho)
    cases op with
    | issue d =>
      have hd : d.invoice_type ≠ "CREDIT NOTE" := by
        have h0 := h (LedgerOp.issue d) (List.mem_cons_self _ _)
        simpa [issueOk] using h0
      simp only [allocatedSeqs, ledgerStep]
      rw [ih _ ht, get_next_seq_append_matching]
      · rfl
      · simp [matchesSeq, record_of_data, hd]
    | void n =>
      simp only [allocatedSeqs, ledgerStep]
      rw [ih _ ht, get_next_seq_cancel]
      rfl

/-- Sums of a parsed-row field over a type-filtered parsed list equal sums of
the corresponding raw-row field over the same type filter on raw rows. -/
theorem sum_map_filter_parse (db : List Record) (P : ParsedRow → Bool)
    (Q : Record → Bool) (f : ParsedRow → Rat) (g : Record → Rat)
    (hPQ : ∀ r, P (_parse_row r) = Q r) (hfg : ∀ r, f (_parse_row r) = g r) :
    (((db.map _parse_row).filter P).map f).sum = ((db.filter Q).map g).sum := by
  induction db with
  | nil => rfl
  | cons a t ih =>
    rw [List.map_cons, List.filter_cons, List.filter_cons, hPQ]
    cases hq : Q a
    · simpa using ih
    · simp only [if_true, List.map_cons, List.sum_cons, hfg, ih]

/-- The per-record GST total splits into the three component sums. -/
theorem sum_map_gst_split (l : List Record) :
    (l.map (fun r => r.cgst + r.sgst + r.igst)).sum =
      (l.map (fun i => i.cgst)).sum + (l.map (fun i => i.sgst)).sum +
        (l.map (fun i => i.igst)).sum := by
  induction l with
  | nil => simp
  | cons a t ih => simp only [List.map_cons, List.sum_cons, ih]; ring

/-! ## Claim theorems -/

/-- C1: the monthly report's net GST payable equals the gross tax components
summed over all non-credit-note rows of the period — the filter tests only the
type tag, so voided rows are included — minus the tax components summed over
the credit-note rows of the period. -/
theorem report_net_gst_formula (db : List Record) :
    (reportOf db).final_summary.net_gst =
      ((db.filter (fun r => decide (r.invoice_type ≠ "CREDIT NOTE"))).map
          (fun r => r.cgst + r.sgst + r.igst)).sum -
        ((db.filter (fun r => decide (r.invoice_type = "CREDIT NOTE"))).map
          (fun r => r.cgst + r.sgst + r.igst)).sum := by
  simp only [reportOf]
  rw [sum_map_filter_parse db (fun p => decide (p.invoice_type ≠ "CREDIT NOTE"))
        (fun r => decide (r.invoice_type ≠ "CREDIT NOTE"))
        (fun i => i.cgst) (fun r => r.cgst) (fun r => rfl) (fun r => rfl),
      sum_map_filter_parse db (fun p => decide (p.invoice_type ≠ "CREDIT NOTE"))
        (fun r => decide (r.invoice_type ≠ "CREDIT NOTE"))
        (fun i => i.sgst) (fun r => r.sgst) (fun r => rfl) (fun r => rfl),
      sum_map_filter_parse db (fun p => decide (p.invoice_type ≠ "CREDIT NOTE"))
        (fun r => decide (r.invoice_type ≠ "CREDIT NOTE"))
        (fun i => i.igst) (fun r => r.igst) (fun r => rfl) (fun r => rfl),
      sum_map_filter_parse db (fun p => decide (p.invoice_type = "CREDIT NOTE"))
        (fun r => decide (r.invoice_type = "CREDIT NOTE"))
        (fun i => i.cgst) (fun r => r.cgst) (fun r => rfl) (fun r => rfl),
      sum_map_filter_parse db (fun p => decide (p.invoice_type = "CREDIT NOTE"))
        (fun r => decide (r.invoice_type = "CREDIT NOTE"))
        (fun i => i.sgst) (fun r => r.sgst) (fun r => rfl) (fun r => rfl),
      sum_map_filter_parse db (fun p => decide (p.invoice_type = "CREDIT NOTE"))
        (fun r => decide (r.invoice_type = "CREDIT NOTE"))
        (fun i => i.igst) (fun r => r.igst) (fun r => rfl) (fun r => rfl),
      sum_map_gst_split, sum_map_gst_split]

/-- C2: with sequential issuance, every issued invoice persisted, no deletions
and a succeeding counting query, starting from a store with no non-credit-note
rows for the seller/period, the sequence numbers the allocator hands out to
non-credit-note issues are exactly 1, 2, 3, … (`List.range' 1 n`): strictly
increasing from 1 with no gaps and no repeats, and unaffected by interleaved
voids of stored invoices.  The allocator itself (`get_next_seq`) is the count
of stored non-credit-note rows for the seller/month/year — voided included —
plus one. -/
theorem seq_numbers_strict_from_one (phone : String) (seller : Seller)
    (m y : Nat) (db : List Record) (ops : List LedgerOp)
    (hdb : (db.filter (matchesSeq phone m y false)).length = 0)
    (hops : ∀ op ∈ ops, issueOk op = true) :
    allocatedSeqs phone seller m y db ops = List.range' 1 (issueCount ops) := by
  rw [allocatedSeqs_eq_range phone seller m y ops db hops]
  unfold get_next_seq
  rw [hdb]

/-- Witness for C2: an empty store, then issue, void the first invoice, issue
again — the allocated sequence numbers are `[1, 2]`. -/
theorem seq_numbers_strict_from_one_witness :
    allocatedSeqs samplePhone tejSeller 2 2026 []
        [LedgerOp.issue sampleData, LedgerOp.void "TEJ001-022026",
         LedgerOp.issue sampleData] = List.range' 1 2 :=
  seq_numbers_strict_from_one samplePhone tejSeller 2 2026 []
    [LedgerOp.issue sampleData, LedgerOp.void "TEJ001-022026",
     LedgerOp.issue sampleData] (by decide) (by decide)

/-- A resolved invoice is a stored row of the requesting seller. -/
theorem resolveInvoice_mem (db : List Record) (phone : String) (seller : Seller)
    (ref : String) (orig : Record)
    (h : resolveInvoice db phone seller ref = some orig) :
    orig ∈ db ∧ orig.seller_phone = phone := by
  unfold resolveInvoice at h
  revert h
  cases hf : get_invoice_by_number db phone ref with
  | some o =>
    intro h
    have ho : o = orig := Option.some.inj h
    subst ho
    unfold get_invoice_by_number at hf
    refine ⟨List.mem_of_find?_eq_some hf, ?_⟩
    have hp := List.find?_some hf
    simp only [Bool.and_eq_true, decide_eq_true_eq] at hp
    exact hp.1
  | none =>
    intro h
    unfold get_invoice_by_number at h
    refine ⟨List.mem_of_find?_eq_some h, ?_⟩
    have hp := List.find?_some h
    simp only [Bool.and_eq_true, decide_eq_true_eq] at hp
    exact hp.1

/-- C3: when cancellation runs to completion, the credit-note row it appends
carries exactly the original invoice's stored taxable value, CGST, SGST, IGST,
grand total and line items — copied, not recomputed — plus the back-reference
to the original number. -/
theorem credit_note_copies_stored_amounts (db : List Record) (from_num ref : String)
    (seller : Seller) (e : CancelEnv) (orig : Record)
    (hres : resolveInvoice db from_num seller ref = some orig)
    (hnc : orig.is_cancelled = false)
    (hncn : orig.invoice_type ≠ "CREDIT NOTE")
    (hpdf : e.pdf_ok = true) (hsave : e.save_ok = true) :
    ∃ cn : Record,
      (handle_cancel_request db from_num (some ref) seller e).1 =
        cancel_invoice_in_db db from_num orig.invoice_number ++ [cn] ∧
      cn.invoice_type = "CREDIT NOTE" ∧
      cn.taxable_value = orig.invoice_data.taxable_value ∧
      cn.cgst = orig.invoice_data.cgst ∧
      cn.sgst = orig.invoice_data.sgst ∧
      cn.igst = orig.invoice_data.igst ∧
      cn.total_amount = orig.invoice_data.total_amount ∧
      cn.invoice_data.items = orig.invoice_data.items ∧
      cn.credit_note_for = orig.invoice_number := by
  refine ⟨record_of_data from_num
      (build_credit_note_data orig.invoice_data orig.invoice_number seller
        (generate_credit_note_number
          (cancel_invoice_in_db db from_num orig.invoice_number)
          from_num seller e.now_month e.now_year) e.now_date)
      e.now_month e.now_year, ?_, rfl, rfl, rfl, rfl, rfl, rfl, rfl, rfl⟩
  simp only [handle_cancel_request, hres]
  simp [hnc, hncn, hpdf, hsave]

/-- Witness for C3: cancelling the sample stored invoice with a working PDF
step and a working save. -/
theorem credit_note_copies_stored_amounts_witness :
    ∃ cn : Record,
      (handle_cancel_request [sampleRecord] samplePhone (some "TEJ001-022026")
          tejSeller ⟨2, 2026, "15/02/2026", true, true⟩).1 =
        cancel_invoice_in_db [sampleRecord] samplePhone sampleRecord.invoice_number ++ [cn] ∧
      cn.invoice_type = "CREDIT NOTE" ∧
      cn.taxable_value = sampleRecord.invoice_data.taxable_value ∧
      cn.cgst = sampleRecord.invoice_data.cgst ∧
      cn.sgst = sampleRecord.invoice_data.sgst ∧
      cn.igst = sampleRecord.invoice_data.igst ∧
      cn.total_amount = sampleRecord.invoice_data.total_amount ∧
      cn.invoice_data.items = sampleRecord.invoice_data.items ∧
      cn.credit_note_for = sampleRecord.invoice_number :=
  credit_note_copies_stored_amounts [sampleRecord] samplePhone "TEJ001-022026"
    tejSeller ⟨2, 2026, "15/02/2026", true, true⟩ sampleRecord
    (by decide) (by decide) (by decide) rfl rfl

/-- C4: a cancellation request that resolves to a row already marked void
reports "already cancelled" and performs no writes: the store is returned
unchanged and no credit note is created. -/
theorem cancel_already_cancelled_idempotent (db : List Record) (from_num ref : String)
    (seller : Seller) (e : CancelEnv) (orig : Record)
    (hres : resolveInvoice db from_num seller ref = some orig)
    (hc : orig.is_cancelled = true) :
    handle_cancel_request db from_num (some ref) seller e =
      (db, CancelResult.alreadyCancelled orig.invoice_number) := by
  simp only [handle_cancel_request, hres]
  simp [hc]

/-- Witness for C4: re-cancelling the already-voided sample invoice. -/
theorem cancel_already_cancelled_idempotent_witness :
    handle_cancel_request [cancelledRecord] samplePhone (some "TEJ001-022026")
        tejSeller ⟨2, 2026, "15/02/2026", true, true⟩ =
      ([cancelledRecord], CancelResult.alreadyCancelled cancelledRecord.invoice_number) :=
  cancel_already_cancelled_idempotent [cancelledRecord] samplePhone "TEJ001-022026"
    tejSeller ⟨2, 2026, "15/02/2026", true, true⟩ cancelledRecord
    (by decide) (by decide)

/-- C10: the void flip is persisted before the PDF step and the credit-note
save.  If the PDF build/upload raises, or the save fails, after the void write
succeeded, the resulting store is exactly the voided store: the original row is
marked void and no credit-note row was added. -/
theorem cancel_not_atomic_on_failure (db : List Record) (from_num ref : String)
    (seller : Seller) (e : CancelEnv) (orig : Record)
    (hres : resolveInvoice db from_num seller ref = some orig)
    (hnc : orig.is_cancelled = false)
    (hncn : orig.invoice_type ≠ "CREDIT NOTE")
    (hfail : e.pdf_ok = false ∨ e.save_ok = false) :
    (handle_cancel_request db from_num (some ref) seller e).1 =
      cancel_invoice_in_db db from_num orig.invoice_number ∧
    { orig with is_cancelled := true } ∈
      (handle_cancel_request db from_num (some ref) seller e).1 ∧
    ((handle_cancel_request db from_num (some ref) seller e).1.filter
        (fun r => decide (r.invoice_type = "CREDIT NOTE"))).length =
      (db.filter (fun r => decide (r.invoice_type = "CREDIT NOTE"))).length := by
  obtain ⟨hmem, hph⟩ := resolveInvoice_mem db from_num seller ref orig hres
  have hstore : (handle_cancel_request db from_num (some ref) seller e).1 =
      cancel_invoice_in_db db from_num orig.invoice_number := by
    simp only [handle_cancel_request, hres]
    rcases hfail with hp | hs
    · simp [hnc, hncn, hp]
    · cases hq : e.pdf_ok <;> simp [hnc, hncn, hq, hs]
  refine ⟨hstore, ?_, ?_⟩
  · rw [hstore]
    unfold cancel_invoice_in_db
    have hmap := List.mem_map_of_mem
      (fun r => if r.seller_phone = from_num ∧ r.invoice_number = orig.invoice_number
                then { r with is_cancelled := true } else r) hmem
    simpa [hph] using hmap
  · rw [hstore]
    exact cancel_preserves_count db from_num orig.invoice_number _ (fun r => rfl)

/-- Witness for C10: the PDF upload fails after the void write on the sample
store. -/
theorem cancel_not_atomic_on_failure_witness :
    (handle_cancel_request [sampleRecord] samplePhone (some "TEJ001-022026")
        tejSeller ⟨2, 2026, "15/02/2026", false, true⟩).1 =
      cancel_invoice_in_db [sampleRecord] samplePhone sampleRecord.invoice_number ∧
    { sampleRecord with is_cancelled := true } ∈
      (handle_cancel_request [sampleRecord] samplePhone (some "TEJ001-022026")
        tejSeller ⟨2, 2026, "15/02/2026", false, true⟩).1 ∧
    ((handle_cancel_request [sampleRecord] samplePhone (some "TEJ001-022026")
        tejSeller ⟨2, 2026, "15/02/2026", false, true⟩).1.filter
        (fun r => decide (r.invoice_type = "CREDIT NOTE"))).length =
      (([sampleRecord] : List Record).filter
        (fun r => decide (r.invoice_type = "CREDIT NOTE"))).length :=
  cancel_not_atomic_on_failure [sampleRecord] samplePhone "TEJ001-022026"
    tejSeller ⟨2, 2026, "15/02/2026", false, true⟩ sampleRecord
    (by decide) (by decide) (by decide) (Or.inl rfl)

/-- Counterexample to C5: with one credit note already stored for the seller
and period, cancelling invoice `TEJ001-022026` issues credit note
`CN-TEJ002-022026` — the parallel credit-note counter, not
`CN-{original invoice number}`. -/
theorem credit_note_number_counterexample :
    (handle_cancel_request [sampleRecord, cnRecord] samplePhone
        (some "TEJ001-022026") tejSeller ⟨2, 2026, "15/02/2026", true, true⟩).2 =
      CancelResult.cancelled "CN-TEJ002-022026" true ∧
    "CN-TEJ002-022026" ≠ "CN-" ++ "TEJ001-022026" := by
  exact ⟨by decide, by decide⟩

/-- C5 as amended: the credit note issued by a successful cancellation is
numbered `CN-{prefix}{k:03d}-{MM}{YYYY}` where `prefix` is the seller's current
prefix, `k` is one plus the number of credit-note rows already stored for that
seller in the cancellation date's month/year, and `MM`/`YYYY` come from the
cancellation date — it equals `CN-{original number}` only when these happen to
coincide. -/
theorem credit_note_number_from_parallel_counter (db : List Record)
    (from_num ref : String) (seller : Seller) (e : CancelEnv) (orig : Record)
    (hres : resolveInvoice db from_num seller ref = some orig)
    (hnc : orig.is_cancelled = false)
    (hncn : orig.invoice_type ≠ "CREDIT NOTE")
    (hpdf : e.pdf_ok = true) :
    (handle_cancel_request db from_num (some ref) seller e).2 =
      CancelResult.cancelled
        ("CN-" ++ invoicePrefixOf seller ++
          pad3 ((db.filter (matchesSeq from_num e.now_month e.now_year true)).length + 1) ++
          "-" ++ pad2 e.now_month ++ toString e.now_year) e.save_ok := by
  simp only [handle_cancel_request, hres]
  have hcount : get_next_seq (cancel_invoice_in_db db from_num orig.invoice_number)
      from_num e.now_month e.now_year true =
      (db.filter (matchesSeq from_num e.now_month e.now_year true)).length + 1 := by
    rw [get_next_seq_cancel]; rfl
  cases hs : e.save_ok <;>
    simp [hnc, hncn, hpdf, hs, generate_credit_note_number, hcount]

/-- Witness for the amended C5: the counterexample store, where the parallel
counter stands at 2. -/
theorem credit_note_number_from_parallel_counter_witness :
    (handle_cancel_request [sampleRecord, cnRecord] samplePhone
        (some "TEJ001-022026") tejSeller ⟨2, 2026, "15/02/2026", true, true⟩).2 =
      CancelResult.cancelled
        ("CN-" ++ invoicePrefixOf tejSeller ++
          pad3 ((([sampleRecord, cnRecord] : List Record).filter
            (matchesSeq samplePhone 2 2026 true)).length + 1) ++
          "-" ++ pad2 2 ++ toString 2026) true :=
  credit_note_number_from_parallel_counter [sampleRecord, cnRecord] samplePhone
    "TEJ001-022026" tejSeller ⟨2, 2026, "15/02/2026", true, true⟩ sampleRecord
    (by decide) (by decide) (by decide) rfl

/-- Counterexample to C6: business name `"7 Eleven"` yields prefix `"7EL"` —
the digit is kept, so the prefix is not the first three alphabetic characters
(`"ELE"`) and is not purely alphabetic. -/
theorem invoice_prefix_counterexample :
    invoicePrefixOf sellerSeven = "7EL" ∧ claimPrefixOf sellerSeven = "ELE" ∧
    invoicePrefixOf sellerSeven ≠ claimPrefixOf sellerSeven ∧
    ¬ ((invoicePrefixOf sellerSeven).data.all (fun c => c.isAlpha) = true) := by
  exact ⟨by decide, by decide, by decide, by decide⟩

/-- C6 as amended: the generated number has the form
`{PREFIX}{SEQ:03d}-{MM}{YYYY}`, where `PREFIX` is the first three characters of
the uppercased business name stripped to its ASCII letters AND digits, padded
with the default `"GUT"` when fewer than three such characters remain; it is
always exactly three characters, each an ASCII uppercase letter or digit
(digits are kept, not skipped). -/
theorem invoice_number_format_amended (db : List Record) (phone : String)
    (seller : Seller) (m y : Nat) :
    generate_invoice_number db phone seller m y =
      invoicePrefixOf seller ++
        pad3 ((db.filter (matchesSeq phone m y false)).length + 1) ++
        "-" ++ pad2 m ++ toString y ∧
    invoicePrefixOf seller =
      String.mk (((pyUpper (pyOr seller.business_name
        (pyOr seller.seller_name "GUT"))).data.filter keepAlnum ++ "GUT".data).take 3) ∧
    (invoicePrefixOf seller).length = 3 ∧
    ∀ c ∈ (invoicePrefixOf seller).data, keepAlnum c = true := by
  refine ⟨rfl, rfl, ?_, ?_⟩
  · show (String.mk _).length = 3
    have hmk : ∀ l : List Char, (String.mk l).length = l.length := fun l => rfl
    rw [hmk, List.length_take, List.length_append]
    have : ("GUT".data).length = 3 := rfl
    omega
  · intro c hc
    have hc2 : c ∈ ((pyUpper (pyOr seller.business_name
        (pyOr seller.seller_name "GUT"))).data.filter keepAlnum ++ "GUT".data) :=
      List.mem_of_mem_take hc
    rcases List.mem_append.mp hc2 with h1 | h2
    · exact List.of_mem_filter h1
    · have hg : ("GUT".data) = ['G', 'U', 'T'] := rfl
      rw [hg] at h2
      simp only [List.mem_cons, List.not_mem_nil, or_false] at h2
      rcases h2 with h | h | h <;> subst h <;> rfl

/-- Counterexample to C7: the fragment `002-022026` is a suffix of the stored
active number `XYZ002-022026`, so the spec's suffix rule resolves it — but the
code's lookup (exact, then current-prefix-prepended exact, here `TEJ`) finds
nothing and the handler reports "not found". -/
theorem cancel_lookup_counterexample :
    claimLookup [recXYZ] samplePhone "002-022026" = some recXYZ ∧
    resolveInvoice [recXYZ] samplePhone tejSeller "002-022026" = none ∧
    (handle_cancel_request [recXYZ] samplePhone (some "002-022026") tejSeller
        ⟨2, 2026, "15/02/2026", true, true⟩).2 =
      CancelResult.notFound "002-022026" := by
  exact ⟨by decide, by decide, by decide⟩

/-- C7 as amended: the cancellation lookup performs no suffix or substring
scan.  It resolves a fragment by (1) exact match of a stored number against the
fragment, else (2) exact match against the seller's current prefix prepended to
the fragment — and is not restricted to active rows.  The spec's scenario still
resolves: bare `002-022026` finds stored `TEJ002-022026` because prepending the
seller's prefix `TEJ` yields an exact match. -/
theorem cancel_lookup_amended :
    (∀ (db : List Record) (phone : String) (seller : Seller) (ref : String)
        (o : Record),
      resolveInvoice db phone seller ref = some o ↔
        (get_invoice_by_number db phone ref = some o ∨
          (get_invoice_by_number db phone ref = none ∧
            get_invoice_by_number db phone (invoicePrefixOf seller ++ ref) = some o))) ∧
    resolveInvoice [tejRecord2] samplePhone tejSeller "002-022026" =
      some tejRecord2 := by
  constructor
  · intro db phone seller ref o
    unfold resolveInvoice
    cases hf : get_invoice_by_number db phone ref with
    | some r =>
      simp only [Option.some.injEq]
      constructor
      · intro h; exact Or.inl h
      · rintro (h | ⟨hnone, _⟩)
        · exact h
        · exact Option.noConfusion hnone
    | none => simp
  · decide

/-- Membership in the report's taxed section: an active non-credit-note parsed
row whose uppercased type tag contains `"TAX"`. -/
theorem mem_tax_invoices (db : List Record) (p : ParsedRow) :
    p ∈ (reportOf db).tax_invoices ↔
      p ∈ db.map _parse_row ∧ p.invoice_type ≠ "CREDIT NOTE" ∧
        p.cancelled = false ∧ pyIn "TAX" (pyUpper p.invoice_type) = true := by
  simp only [reportOf]
  simp [List.mem_filter, and_assoc]
  intro x hx hp
  tauto

/-- Membership in the report's bill-of-supply section: an active
non-credit-note parsed row whose uppercased type tag contains `"BILL"`. -/
theorem mem_bos_invoices (db : List Record) (p : ParsedRow) :
    p ∈ (reportOf db).bos_invoices ↔
      p ∈ db.map _parse_row ∧ p.invoice_type ≠ "CREDIT NOTE" ∧
        p.cancelled = false ∧ pyIn "BILL" (pyUpper p.invoice_type) = true := by
  simp only [reportOf]
  simp [List.mem_filter, and_assoc]
  intro x hx hp
  tauto

/-- Membership in the report's non-GST section: an active non-credit-note
parsed row whose uppercased type tag is exactly one of `"INVOICE"`,
`"NON-GST"`, `"NONGST"`. -/
theorem mem_nongst_invoices (db : List Record) (p : ParsedRow) :
    p ∈ (reportOf db).nongst_invoices ↔
      p ∈ db.map _parse_row ∧ p.invoice_type ≠ "CREDIT NOTE" ∧
        p.cancelled = false ∧
        (pyUpper p.invoice_type = "INVOICE" ∨ pyUpper p.invoice_type = "NON-GST" ∨
          pyUpper p.invoice_type = "NONGST") := by
  simp only [reportOf]
  simp [List.mem_filter, and_assoc]
  intro x hx hp
  tauto

/-- Counterexample to C8: an active row typed `"TAX BILL"` lands in both the
taxed and the bill-of-supply sections, and an active row typed `"PROFORMA"`
lands in none of the three — the sections are independent containment filters,
not a first-match-wins partition. -/
theorem report_sections_counterexample :
    (reportOf [recTaxBill, recMisc]).tax_invoices = [_parse_row recTaxBill] ∧
    (reportOf [recTaxBill, recMisc]).bos_invoices = [_parse_row recTaxBill] ∧
    (reportOf [recTaxBill, recMisc]).nongst_invoices = [] := by
  exact ⟨by decide, by decide, by decide⟩

/-- C8 as amended: the three sections are independent filters over active
non-credit-note rows — taxed iff the uppercased tag contains `"TAX"`,
bill-of-supply iff it contains `"BILL"`, non-GST iff it equals `"INVOICE"`,
`"NON-GST"` or `"NONGST"` — so exotic tags can land in two sections or in
none; for the canonical tags the pipeline produces (`"TAX INVOICE"`,
`"BILL OF SUPPLY"`, `"INVOICE"`) every active row lands in exactly one
section. -/
theorem report_sections_amended (db : List Record) (p : ParsedRow)
    (hmem : p ∈ db.map _parse_row) (hreg : p.invoice_type ≠ "CREDIT NOTE")
    (hact : p.cancelled = false)
    (hcanon : p.invoice_type = "TAX INVOICE" ∨ p.invoice_type = "BILL OF SUPPLY" ∨
      p.invoice_type = "INVOICE") :
    (p ∈ (reportOf db).tax_invoices ∧ p ∉ (reportOf db).bos_invoices ∧
      p ∉ (reportOf db).nongst_invoices) ∨
    (p ∉ (reportOf db).tax_invoices ∧ p ∈ (reportOf db).bos_invoices ∧
      p ∉ (reportOf db).nongst_invoices) ∨
    (p ∉ (reportOf db).tax_invoices ∧ p ∉ (reportOf db).bos_invoices ∧
      p ∈ (reportOf db).nongst_invoices) := by
  rcases hcanon with h | h | h
  · refine Or.inl ⟨?_, ?_, ?_⟩
    · exact (mem_tax_invoices db p).mpr ⟨hmem, hreg, hact, by rw [h]; decide⟩
    · intro hb
      have := ((mem_bos_invoices db p).mp hb).2.2.2
      rw [h] at this
      exact absurd this (by decide)
    · intro hn
      have := ((mem_nongst_invoices db p).mp hn).2.2.2
      rw [h] at this
      exact absurd this (by decide)
  · refine Or.inr (Or.inl ⟨?_, ?_, ?_⟩)
    · intro ht
      have := ((mem_tax_invoices db p).mp ht).2.2.2
      rw [h] at this
      exact absurd this (by decide)
    · exact (mem_bos_invoices db p).mpr ⟨hmem, hreg, hact, by rw [h]; decide⟩
    · intro hn
      have := ((mem_nongst_invoices db p).mp hn).2.2.2
      rw [h] at this
      exact absurd this (by decide)
  · refine Or.inr (Or.inr ⟨?_, ?_, ?_⟩)
    · intro ht
      have := ((mem_tax_invoices db p).mp ht).2.2.2
      rw [h] at this
      exact absurd this (by decide)
    · intro hb
      have := ((mem_bos_invoices db p).mp hb).2.2.2
      rw [h] at this
      exact absurd this (by decide)
    · exact (mem_nongst_invoices db p).mpr ⟨hmem, hreg, hact, by rw [h]; decide⟩

/-- Witness for the amended C8: the sample active `"TAX INVOICE"` row lands in
exactly the taxed section. -/
theorem report_sections_amended_witness :
    (_parse_row sampleRecord ∈ (reportOf [sampleRecord]).tax_invoices ∧
      _parse_row sampleRecord ∉ (reportOf [sampleRecord]).bos_invoices ∧
      _parse_row sampleRecord ∉ (reportOf [sampleRecord]).nongst_invoices) ∨
    (_parse_row sampleRecord ∉ (reportOf [sampleRecord]).tax_invoices ∧
      _parse_row sampleRecord ∈ (reportOf [sampleRecord]).bos_invoices ∧
      _parse_row sampleRecord ∉ (reportOf [sampleRecord]).nongst_invoices) ∨
    (_parse_row sampleRecord ∉ (reportOf [sampleRecord]).tax_invoices ∧
      _parse_row sampleRecord ∉ (reportOf [sampleRecord]).bos_invoices ∧
      _parse_row sampleRecord ∈ (reportOf [sampleRecord]).nongst_invoices) :=
  report_sections_amended [sampleRecord] (_parse_row sampleRecord)
    (by decide) (by decide) rfl (Or.inl rfl)

/-- C9: adding a voided non-credit-note row to the period leaves the HSN-wise
breakdown unchanged (it is built from active rows only) while the final
summary's gross taxable value and gross tax components each grow by that row's
stored amounts (the gross sums include voided rows) — the asymmetry holds for
every monthly aggregation. -/
theorem hsn_active_only_but_gross_includes_voided (db : List Record) (r : Record)
    (hreg : r.invoice_type ≠ "CREDIT NOTE") (hvoid : r.is_cancelled = true) :
    (reportOf (db ++ [r])).hsn_summary = (reportOf db).hsn_summary ∧
    (reportOf (db ++ [r])).final_summary.gross_taxable =
      (reportOf db).final_summary.gross_taxable + r.taxable_value ∧
    (reportOf (db ++ [r])).final_summary.gross_cgst =
      (reportOf db).final_summary.gross_cgst + r.cgst ∧
    (reportOf (db ++ [r])).final_summary.gross_sgst =
      (reportOf db).final_summary.gross_sgst + r.sgst ∧
    (reportOf (db ++ [r])).final_summary.gross_igst =
      (reportOf db).final_summary.gross_igst + r.igst := by
  have hregp : ((_parse_row r).invoice_type = "CREDIT NOTE") = False :=
    eq_false hreg
  have hvoidp : (_parse_row r).cancelled = true := hvoid
  simp only [reportOf, List.map_append, List.map_cons, List.map_nil,
    List.filter_append, List.filter_cons, List.filter_nil, hregp, hvoidp,
    List.sum_append, List.sum_cons, List.sum_nil, decide_not]
  simp [hvoidp]
  exact ⟨rfl, rfl, rfl, rfl⟩

/-- Witness for C9: appending the voided sample invoice to an empty period. -/
theorem hsn_active_only_but_gross_includes_voided_witness :
    (reportOf ([] ++ [cancelledRecord])).hsn_summary = (reportOf []).hsn_summary ∧
    (reportOf ([] ++ [cancelledRecord])).final_summary.gross_taxable =
      (reportOf []).final_summary.gross_taxable + cancelledRecord.taxable_value ∧
    (reportOf ([] ++ [cancelledRecord])).final_summary.gross_cgst =
      (reportOf []).final_summary.gross_cgst + cancelledRecord.cgst ∧
    (reportOf ([] ++ [cancelledRecord])).final_summary.gross_sgst =
      (reportOf []).final_summary.gross_sgst + cancelledRecord.sgst ∧
    (reportOf ([] ++ [cancelledRecord])).final_summary.gross_igst =
      (reportOf []).final_summary.gross_igst + cancelledRecord.igst :=
  hsn_active_only_but_gross_includes_voided [] cancelledRecord
    (by decide) rfl

end GutInvoice
